import Mathlib

/-!
A shallow embedding of the Go-Apns client (`apns.go`) and proofs about it.

The Go source is a single-file APNs (Apple push notification) client:
a `sendLoop` goroutine owns one TLS connection, services send requests
arriving on `sendChan`, reconnects on demand, tears the connection down on
idle timeout or on a quit signal from the concurrent `readError` goroutine.

The embedding models the sequential state machine executed by `sendLoop`
(one atomic step per serviced event), with all external effects (TLS dial
and handshake outcomes, payload JSON marshalling, the wall clock, socket
write outcomes, socket read outcomes) supplied as oracle inputs per step.
Machine integers are `Nat` with explicit `% 2 ^ 32` (Go `uint32`) and
`% 2 ^ 16` (Go `uint16`) where the code truncates.
-/

namespace Apns

/-! ## Byte-level encoding helpers (Go `encoding/binary`, big-endian) -/

/-- Big-endian bytes of a `uint16`, as written by `binary.Write(_, binary.BigEndian, uint16 v)`.
The Go conversion `uint16(n)` keeps the low 16 bits, hence the mod. -/
def beU16 (n : Nat) : List Nat :=
  [n / 2 ^ 8 % 256, n % 256]

/-- Big-endian bytes of a `uint32`, as written by `binary.Write(_, binary.BigEndian, uint32 v)`. -/
def beU32 (n : Nat) : List Nat :=
  [n / 2 ^ 24 % 256, n / 2 ^ 16 % 256, n / 2 ^ 8 % 256, n % 256]

/-- Go conversion of a (possibly negative) `int64` to `uint32`: the low 32 bits
of the two's complement representation, i.e. the value mod `2 ^ 32`. -/
def uint32Of (i : Int) : Nat :=
  (i % (2 ^ 32 : Int)).toNat

/-! ## Errors

One constructor per `fmt.Errorf` site of `apns.go` (plus `nilConnWrite` for the
write-on-nil-connection path, where the Go code would dereference a nil
pointer). Each carries the message of the underlying error it wraps. -/

inductive ApnError
  /-- `connect`: "close last connection failed: %s" -/
  | closeLast (msg : String)
  /-- `connect`: "connect to server error: %d" (dial failure) -/
  | dialFailed (msg : String)
  /-- `connect`: "handshake server error: %s" -/
  | handshakeFailed (msg : String)
  /-- `send`: "convert token to hex error: %s" -/
  | tokenHex (msg : String)
  /-- `send`: "convert payload to json: %s" -/
  | payloadMarshal (msg : String)
  /-- `send`: "payload json too large: %s" -/
  | payloadTooLarge (payload : List Nat)
  /-- `send`: "write socket error: %s" -/
  | socketWrite (msg : String)
  /-- `send` reached `a.conn.Write` with `a.conn == nil` (a panic in Go). -/
  | nilConnWrite
  deriving DecidableEq, Repr

instance {ε α : Type} [DecidableEq ε] [DecidableEq α] : DecidableEq (Except ε α) := fun x y =>
  match x, y with
  | .ok a, .ok b =>
    if h : a = b then .isTrue (by rw [h]) else .isFalse (by intro he; cases he; exact h rfl)
  | .error a, .error b =>
    if h : a = b then .isTrue (by rw [h]) else .isFalse (by intro he; cases he; exact h rfl)
  | .ok _, .error _ => .isFalse (by intro he; cases he)
  | .error _, .ok _ => .isFalse (by intro he; cases he)

/-- `true` exactly on `Except.error`. -/
def isSendError : Except ApnError Unit → Bool
  | .error _ => true
  | .ok _ => false

/-- `true` exactly on the oversized-payload rejection of `send`. -/
def isPayloadTooLarge : Except ApnError Unit → Bool
  | .error (.payloadTooLarge _) => true
  | _ => false

/-! ## Hex decoding (Go `encoding/hex.DecodeString`) -/

/-- Value of one hex digit, `none` for a non-digit
(Go `encoding/hex.fromHexChar`: accepts 0-9, a-f, A-F). -/
def hexDigitVal (c : Char) : Option Nat :=
  if '0' ≤ c ∧ c ≤ '9' then some (c.toNat - '0'.toNat)
  else if 'a' ≤ c ∧ c ≤ 'f' then some (c.toNat - 'a'.toNat + 10)
  else if 'A' ≤ c ∧ c ≤ 'F' then some (c.toNat - 'A'.toNat + 10)
  else none

/-- Decode a hex character list two digits per byte, as `encoding/hex.Decode`:
an invalid digit is an error; a trailing lone valid digit is an odd-length error. -/
def hexDecodeList : List Char → Except String (List Nat)
  | [] => .ok []
  | [c] =>
    match hexDigitVal c with
    | some _ => .error "encoding hex odd length hex string"
    | none => .error "encoding hex invalid byte"
  | a :: b :: rest =>
    match hexDigitVal a with
    | none => .error "encoding hex invalid byte"
    | some ha =>
      match hexDigitVal b with
      | none => .error "encoding hex invalid byte"
      | some hb => (hexDecodeList rest).map (fun t => (16 * ha + hb) :: t)

/-- Go `hex.DecodeString` on the device-token string. -/
def hexDecode (s : String) : Except String (List Nat) :=
  hexDecodeList s.data

/-! ## Data model -/

/-- The notification as `send` consumes it. The Go struct also carries
`Payload *Payload`; its `MarshalJSON` lives outside `apns.go`, so the
marshalled bytes are supplied by the per-send oracle `SendEnv.marshal`. -/
structure Notification where
  deviceToken : String
  expireAfterSeconds : Int
  deriving DecidableEq, Repr

/-- Modelled from the spec: `NewNotificationError` (defined outside `apns.go`)
builds the ErrorEvent published on the error channel, carrying the raw
response bytes that were read (0-6 of them) and the underlying transport
error if any. -/
structure ErrorEvent where
  raw : List Nat
  readErr : Option String
  deriving DecidableEq, Repr

/-- Per-send oracle: outcome of `Payload.MarshalJSON` (external to `apns.go`),
the wall clock `time.Now().Unix()`, and the outcome of `conn.Write`. -/
structure SendEnv where
  marshal : Except String (List Nat)
  nowUnix : Int
  writeErr : Option String
  deriving DecidableEq, Repr

/-- Per-connect oracle: outcomes of closing the previous connection,
of `net.Dial`, and of `tls.Conn.Handshake`. -/
structure ConnectEnv where
  closeErr : Option String
  dialErr : Option String
  handshakeErr : Option String
  deriving DecidableEq, Repr

/-- State of one `Apn` client as seen by the send loop.

`conn` is the `a.conn` field (the socket id it references, if any).
`openSocks` is a ledger of every socket this client has opened and not yet
closed; a socket opened by `net.Dial` whose handshake then fails stays in
the ledger (the Go code leaks it) but is never referenced by `conn`.
`phase` is the control position of `sendLoop`: `idle` at the top of the
outer loop, `active` inside the inner `for connected` loop. -/
inductive Phase
  | idle
  | active
  deriving DecidableEq, Repr

structure LoopState where
  conn : Option Nat
  identifier : Nat
  nextSock : Nat
  openSocks : List Nat
  phase : Phase
  deriving DecidableEq, Repr

/-- The client right after `New`: no connection, identifier counter zero. -/
def initState : LoopState :=
  ⟨none, 0, 0, [], .idle⟩

/-! ## Close and connect -/

/-- `Apn.Close`: nil connection is a no-op success; otherwise clear `a.conn`
and close the socket, returning `conn.Close()`'s error (raw, unwrapped).
The socket leaves the open ledger even when `Close` reports an error. -/
def closeApn (closeErr : Option String) (st : LoopState) : Option String × LoopState :=
  match st.conn with
  | none => (none, st)
  | some c => (closeErr, { st with conn := none, openSocks := st.openSocks.erase c })

/-- `Apn.connect`: close any previous connection, then dial, wrap in TLS and
handshake. Returns the result, the new state and the number of dial attempts
made (0 or 1). On handshake failure the freshly dialed socket is left open
and unreferenced, exactly as in the Go code. -/
def connect (cenv : ConnectEnv) (st : LoopState) :
    Except ApnError Unit × LoopState × Nat :=
  match closeApn cenv.closeErr st with
  | (some e, st1) => (.error (.closeLast e), st1, 0)
  | (none, st1) =>
    match cenv.dialErr with
    | some e => (.error (.dialFailed e), st1, 1)
    | none =>
      let sock := st1.nextSock
      let st2 := { st1 with nextSock := sock + 1, openSocks := st1.openSocks ++ [sock] }
      match cenv.handshakeErr with
      | some e => (.error (.handshakeFailed e), st2, 1)
      | none => (.ok (), { st2 with conn := some sock }, 1)

/-! ## The push-request frame and send -/

/-- The 256-byte payload ceiling (`const maxPayloadBytes = 256`). -/
def maxPayloadBytes : Nat := 256

/-- The buffer built by `send` before writing: command tag `1`, identifier,
expiry, token length and bytes, payload length and bytes, all big-endian. -/
def encodePushFrame (identifier expiry : Nat) (token payload : List Nat) : List Nat :=
  [1] ++ beU32 identifier ++ beU32 expiry ++
    beU16 token.length ++ token ++ beU16 payload.length ++ payload

/-- Result of one `Apn.send` call: the returned error or success, the state
after the call, the byte sequences passed to `conn.Write`, and the
identifiers assigned to frames built during the call. -/
structure SendOut where
  result : Except ApnError Unit
  state : LoopState
  writes : List (List Nat)
  frameIds : List Nat
  deriving DecidableEq, Repr

/-- `Apn.send`: decode the token, marshal the payload (oracle), reject an
oversized payload, build the frame, bump the identifier, write. The
identifier is bumped (mod `2 ^ 32`, Go `uint32` overflow) before the write,
so a failed write still consumes an identifier. -/
def send (env : SendEnv) (n : Notification) (st : LoopState) : SendOut :=
  match hexDecode n.deviceToken with
  | .error e => ⟨.error (.tokenHex e), st, [], []⟩
  | .ok tokenbin =>
    match env.marshal with
    | .error e => ⟨.error (.payloadMarshal e), st, [], []⟩
    | .ok payloadbyte =>
      if maxPayloadBytes < payloadbyte.length then
        ⟨.error (.payloadTooLarge payloadbyte), st, [], []⟩
      else
        let expiry := uint32Of (env.nowUnix + n.expireAfterSeconds)
        let pushPackage := encodePushFrame st.identifier expiry tokenbin payloadbyte
        let fid := st.identifier
        let st' := { st with identifier := (st.identifier + 1) % 2 ^ 32 }
        match st'.conn with
        | none => ⟨.error .nilConnWrite, st', [], [fid]⟩
        | some _ =>
          match env.writeErr with
          | some e => ⟨.error (.socketWrite e), st', [pushPackage], [fid]⟩
          | none => ⟨.ok (), st', [pushPackage], [fid]⟩

/-! ## The send loop as a step machine -/

/-- One event serviced by `sendLoop`, with the oracle inputs it consumes.
`submit` is a request arriving on `sendChan` (serviced at the top of the
outer loop when idle, inside the `select` when active); `quitSignal` and
`idleTimeout` are the other two `select` arms; `closeCall` is a caller
invoking the public `Apn.Close`. -/
inductive Step
  | submit (reqId : Nat) (cenv : ConnectEnv) (senv : SendEnv) (n : Notification)
  | quitSignal (closeErr : Option String)
  | idleTimeout (closeErr : Option String)
  | closeCall
  deriving DecidableEq, Repr

/-- Observable output of one step: results delivered on per-request channels
(tagged with the request id), bytes written to the socket, identifiers
assigned to frames, dial attempts made, and events published on the error
channel. -/
structure StepOut where
  results : List (Nat × Except ApnError Unit)
  writes : List (List Nat)
  frameIds : List Nat
  dials : Nat
  events : List ErrorEvent
  deriving DecidableEq, Repr

def StepOut.empty : StepOut := ⟨[], [], [], 0, []⟩

def StepOut.append (a b : StepOut) : StepOut :=
  ⟨a.results ++ b.results, a.writes ++ b.writes, a.frameIds ++ b.frameIds,
   a.dials + b.dials, a.events ++ b.events⟩

/-- Leaving the `Active` phase (`sendLoop` after the inner loop): close the
connection; a close failure is published on the error channel as
`NewNotificationError(nil, err)`; return to `Idle`. -/
def leaveActive (closeErr : Option String) (st : LoopState) : LoopState × StepOut :=
  match closeApn closeErr st with
  | (some e, st1) =>
    ({ st1 with phase := .idle }, { StepOut.empty with events := [⟨[], some e⟩] })
  | (none, st1) => ({ st1 with phase := .idle }, StepOut.empty)

/-- One step of the send-loop machine. A `submit` while idle runs
`connect` and, on success, the triggering `send`, entering the active phase
whatever that first send returned; a `submit` while active just runs `send`.
`quitSignal` and `idleTimeout` end the active phase; while idle they cannot
fire (no reader or timer exists) and are no-ops. `closeCall` closes any live
connection without moving the loop's control position; its result goes to
the closing caller, which the step output does not track. -/
def stepLoop (st : LoopState) (s : Step) : LoopState × StepOut :=
  match s with
  | .submit reqId cenv senv n =>
    match st.phase with
    | .idle =>
      match connect cenv st with
      | (.error e, st1, d) =>
        (st1, { StepOut.empty with results := [(reqId, .error e)], dials := d })
      | (.ok _, st1, d) =>
        let so := send senv n st1
        ({ so.state with phase := .active },
         ⟨[(reqId, so.result)], so.writes, so.frameIds, d, []⟩)
    | .active =>
      let so := send senv n st
      (so.state,
       { StepOut.empty with
          results := [(reqId, so.result)], writes := so.writes, frameIds := so.frameIds })
  | .quitSignal ce =>
    match st.phase with
    | .active => leaveActive ce st
    | .idle => (st, StepOut.empty)
  | .idleTimeout ce =>
    match st.phase with
    | .active => leaveActive ce st
    | .idle => (st, StepOut.empty)
  | .closeCall =>
    ((closeApn none st).2, StepOut.empty)

/-- Run the send-loop machine over a trace of steps, accumulating outputs. -/
def runLoop (st : LoopState) : List Step → LoopState × StepOut
  | [] => (st, StepOut.empty)
  | s :: rest =>
    let p := stepLoop st s
    let q := runLoop p.1 rest
    (q.1, p.2.append q.2)

/-- The connections the client currently holds open: the socket referenced
by `a.conn`, provided it is still in the open ledger. -/
def heldOpen (st : LoopState) : List Nat :=
  match st.conn with
  | some c => if c ∈ st.openSocks then [c] else []
  | none => []

/-! ## The error reader -/

/-- Oracle outcome of one `conn.Read(p)` with `len(p) = 6`: the bytes read
(`p[:n]`, so at most 6 of them) and the read error if any. -/
structure ReadOutcome where
  bytes : List Nat
  readErr : Option String
  deriving DecidableEq, Repr

/-- The event `readError` publishes for one read: `NewNotificationError(p[:n], err)`. -/
def mkEvent (r : ReadOutcome) : ErrorEvent :=
  ⟨r.bytes, r.readErr⟩

/-- `readError` over a list of read outcomes: each iteration reads once and
publishes one event; on a read error it signals the quit channel once and
returns; otherwise it loops. The result is the events published and the
number of quit signals sent. An exhausted oracle list models a reader still
blocked in `conn.Read`. -/
def readError : List ReadOutcome → List ErrorEvent × Nat
  | [] => ([], 0)
  | r :: rest =>
    match r.readErr with
    | some _ => ([mkEvent r], 1)
    | none =>
      let p := readError rest
      (mkEvent r :: p.1, p.2)

/-! ## Basic lemmas about `send` -/

/-- A failing token decode aborts `send` with the wrapped hex error and no
other effect. -/
theorem send_hex_err {env : SendEnv} {n : Notification} {st : LoopState} {e : String}
    (h : hexDecode n.deviceToken = .error e) :
    send env n st = ⟨.error (.tokenHex e), st, [], []⟩ := by
  simp [send, h]

/-- A failing payload marshal aborts `send` with the wrapped JSON error and no
other effect. -/
theorem send_marshal_err {env : SendEnv} {n : Notification} {st : LoopState}
    {tok : List Nat} {e : String}
    (htok : hexDecode n.deviceToken = .ok tok) (h : env.marshal = .error e) :
    send env n st = ⟨.error (.payloadMarshal e), st, [], []⟩ := by
  simp [send, htok, h]

/-- An oversized payload aborts `send` with the size error and no other
effect. -/
theorem send_too_large {env : SendEnv} {n : Notification} {st : LoopState}
    {tok pb : List Nat}
    (htok : hexDecode n.deviceToken = .ok tok) (hpb : env.marshal = .ok pb)
    (h : maxPayloadBytes < pb.length) :
    send env n st = ⟨.error (.payloadTooLarge pb), st, [], []⟩ := by
  simp [send, htok, hpb, h]

/-- Once token, marshal and size check pass, `send` builds a frame with the
current identifier and bumps the counter mod `2 ^ 32`, whatever the write
outcome. -/
theorem send_reaches_write {env : SendEnv} {n : Notification} {st : LoopState}
    {tok pb : List Nat}
    (htok : hexDecode n.deviceToken = .ok tok) (hpb : env.marshal = .ok pb)
    (hlen : pb.length ≤ maxPayloadBytes) :
    (send env n st).state = { st with identifier := (st.identifier + 1) % 2 ^ 32 }
    ∧ (send env n st).frameIds = [st.identifier] := by
  have hnot : ¬ maxPayloadBytes < pb.length := Nat.not_lt.mpr hlen
  cases hc : st.conn with
  | none =>
    simp [send, htok, hpb, hnot, hc]
  | some c =>
    cases hw : env.writeErr with
    | none => simp [send, htok, hpb, hnot, hc, hw]
    | some e => simp [send, htok, hpb, hnot, hc, hw]

/-- With a live connection and a successful write, `send` succeeds and writes
the encoded frame. -/
theorem send_write_ok {env : SendEnv} {n : Notification} {st : LoopState}
    {c : Nat} {tok pb : List Nat}
    (hconn : st.conn = some c)
    (htok : hexDecode n.deviceToken = .ok tok) (hpb : env.marshal = .ok pb)
    (hlen : pb.length ≤ maxPayloadBytes) (hw : env.writeErr = none) :
    send env n st =
      ⟨.ok (), { st with identifier := (st.identifier + 1) % 2 ^ 32 },
       [encodePushFrame st.identifier (uint32Of (env.nowUnix + n.expireAfterSeconds)) tok pb],
       [st.identifier]⟩ := by
  have hnot : ¬ maxPayloadBytes < pb.length := Nat.not_lt.mpr hlen
  simp [send, htok, hpb, hnot, hconn, hw]

/-- With a live connection and a failing write, `send` returns the wrapped
write error; the frame bytes were still handed to `conn.Write` and the
identifier was still consumed. -/
theorem send_write_err {env : SendEnv} {n : Notification} {st : LoopState}
    {c : Nat} {tok pb : List Nat} {e : String}
    (hconn : st.conn = some c)
    (htok : hexDecode n.deviceToken = .ok tok) (hpb : env.marshal = .ok pb)
    (hlen : pb.length ≤ maxPayloadBytes) (hw : env.writeErr = some e) :
    send env n st =
      ⟨.error (.socketWrite e), { st with identifier := (st.identifier + 1) % 2 ^ 32 },
       [encodePushFrame st.identifier (uint32Of (env.nowUnix + n.expireAfterSeconds)) tok pb],
       [st.identifier]⟩ := by
  have hnot : ¬ maxPayloadBytes < pb.length := Nat.not_lt.mpr hlen
  simp [send, htok, hpb, hnot, hconn, hw]

/-! ## Concrete demonstration inputs -/

/-- A well-formed notification: token "ab12" decodes to `[171, 18]`. -/
def demoNotif : Notification := ⟨"ab12", 3600⟩

/-- A send oracle where marshalling yields two bytes and the write succeeds. -/
def demoSendEnv : SendEnv := ⟨.ok [104, 105], 1000, none⟩

/-- A connect oracle where dial and handshake succeed. -/
def demoConnectEnv : ConnectEnv := ⟨none, none, none⟩

/-- A request that connects (if idle) and sends successfully. -/
def demoSubmit : Step := .submit 0 demoConnectEnv demoSendEnv demoNotif

/-! ## C2: the bytes of a push-request frame -/

/-- C2: every send attempt that reaches the socket write hands `conn.Write`
exactly the big-endian concatenation of the 1-byte command tag `1`, the
4-byte identifier, the 4-byte expiry, the 2-byte token length, the token
bytes, the 2-byte payload length and the payload bytes; its total length is
`13 + tokenLen + payloadLen`. -/
theorem c2_push_frame_layout (env : SendEnv) (n : Notification) (st : LoopState)
    (c : Nat) (tok pb : List Nat)
    (hconn : st.conn = some c)
    (htok : hexDecode n.deviceToken = .ok tok) (hpb : env.marshal = .ok pb)
    (hlen : pb.length ≤ maxPayloadBytes) :
    (send env n st).writes
      = [[1] ++ beU32 st.identifier
          ++ beU32 (uint32Of (env.nowUnix + n.expireAfterSeconds))
          ++ beU16 tok.length ++ tok ++ beU16 pb.length ++ pb]
    ∧ ∀ w ∈ (send env n st).writes, w.length = 13 + tok.length + pb.length := by
  have hframe : (send env n st).writes
      = [encodePushFrame st.identifier (uint32Of (env.nowUnix + n.expireAfterSeconds)) tok pb] := by
    cases hw : env.writeErr with
    | none => rw [send_write_ok hconn htok hpb hlen hw]
    | some e => rw [send_write_err hconn htok hpb hlen hw]
  constructor
  · rw [hframe]; rfl
  · intro w hw
    rw [hframe] at hw
    simp only [List.mem_singleton] at hw
    subst hw
    simp [encodePushFrame, beU32, beU16]
    omega

/-- Witness for C2 at a concrete notification and environment. -/
theorem c2_push_frame_layout_witness :
    (send demoSendEnv demoNotif ⟨some 0, 5, 1, [0], .active⟩).writes
      = [[1] ++ beU32 5 ++ beU32 4600 ++ beU16 2 ++ [171, 18] ++ beU16 2 ++ [104, 105]]
    ∧ ∀ w ∈ (send demoSendEnv demoNotif ⟨some 0, 5, 1, [0], .active⟩).writes,
        w.length = 13 + 2 + 2 := by
  have h := c2_push_frame_layout demoSendEnv demoNotif ⟨some 0, 5, 1, [0], .active⟩
    0 [171, 18] [104, 105] rfl (by decide) rfl (by decide)
  exact h

/-! ## C7: oversized payloads are rejected before the socket -/

/-- C7: a serialized payload longer than 256 bytes makes the send attempt
fail before any frame is built or any byte is written, while a payload of
exactly 256 bytes is not rejected by this size check. -/
theorem c7_payload_ceiling (env : SendEnv) (n : Notification) (st : LoopState)
    (pb : List Nat) (hpb : env.marshal = .ok pb) :
    (maxPayloadBytes < pb.length →
       isSendError (send env n st).result = true
       ∧ (send env n st).writes = []
       ∧ (send env n st).frameIds = []
       ∧ (send env n st).state = st)
    ∧ (pb.length = maxPayloadBytes →
       isPayloadTooLarge (send env n st).result = false) := by
  constructor
  · intro hbig
    cases htok : hexDecode n.deviceToken with
    | error e => rw [send_hex_err htok]; simp [isSendError]
    | ok tok => rw [send_too_large htok hpb hbig]; simp [isSendError]
  · intro heq
    have hlen : pb.length ≤ maxPayloadBytes := Nat.le_of_eq heq
    cases htok : hexDecode n.deviceToken with
    | error e => rw [send_hex_err htok]; rfl
    | ok tok =>
      cases hc : st.conn with
      | none =>
        have h := @send_reaches_write _ _ st _ _ htok hpb hlen
        have hnot : ¬ maxPayloadBytes < pb.length := Nat.not_lt.mpr hlen
        simp [send, htok, hpb, hnot, hc, isPayloadTooLarge]
      | some c =>
        cases hw : env.writeErr with
        | none => rw [send_write_ok hc htok hpb hlen hw]; rfl
        | some e => rw [send_write_err hc htok hpb hlen hw]; rfl

/-- Witness for C7: a 257-byte payload is rejected with nothing written, and
a 256-byte payload gets past the size check. -/
theorem c7_payload_ceiling_witness :
    (maxPayloadBytes < (List.replicate 257 0 : List Nat).length →
       isSendError (send ⟨.ok (List.replicate 257 0), 1000, none⟩ demoNotif initState).result = true
       ∧ (send ⟨.ok (List.replicate 257 0), 1000, none⟩ demoNotif initState).writes = []
       ∧ (send ⟨.ok (List.replicate 257 0), 1000, none⟩ demoNotif initState).frameIds = []
       ∧ (send ⟨.ok (List.replicate 257 0), 1000, none⟩ demoNotif initState).state = initState)
    ∧ ((List.replicate 257 0 : List Nat).length = maxPayloadBytes →
       isPayloadTooLarge (send ⟨.ok (List.replicate 257 0), 1000, none⟩ demoNotif initState).result = false) :=
  c7_payload_ceiling ⟨.ok (List.replicate 257 0), 1000, none⟩ demoNotif initState
    (List.replicate 257 0) rfl

/-! ## C9: a send that reaches the write consumes exactly one identifier -/

/-- C9: every send attempt that passes the token, marshal and size checks
assigns the current identifier to its frame and increments the counter by
exactly one (mod `2 ^ 32`), whether or not the write then fails. -/
theorem c9_identifier_consumed (env : SendEnv) (n : Notification) (st : LoopState)
    (tok pb : List Nat)
    (htok : hexDecode n.deviceToken = .ok tok) (hpb : env.marshal = .ok pb)
    (hlen : pb.length ≤ maxPayloadBytes) :
    (send env n st).state.identifier = (st.identifier + 1) % 2 ^ 32
    ∧ (send env n st).frameIds = [st.identifier] := by
  have h := @send_reaches_write _ _ st _ _ htok hpb hlen
  exact ⟨by rw [h.1], h.2⟩

/-- Witness for C9 at a failing write: the error is returned yet the
identifier was consumed. -/
theorem c9_identifier_consumed_witness :
    (send ⟨.ok [104, 105], 1000, some "broken pipe"⟩ demoNotif
        ⟨some 0, 7, 1, [0], .active⟩).state.identifier = (7 + 1) % 2 ^ 32
    ∧ (send ⟨.ok [104, 105], 1000, some "broken pipe"⟩ demoNotif
        ⟨some 0, 7, 1, [0], .active⟩).frameIds = [7] :=
  c9_identifier_consumed ⟨.ok [104, 105], 1000, some "broken pipe"⟩ demoNotif
    ⟨some 0, 7, 1, [0], .active⟩ [171, 18] [104, 105] (by decide) rfl (by decide)

/-! ## C10: failures before the write leave the client untouched -/

/-- C10: when the token hex decode fails, the payload marshal fails, or the
payload exceeds 256 bytes, the send attempt returns an error with the state
unchanged, no identifier consumed and no bytes written. -/
theorem c10_early_failure_no_effect (env : SendEnv) (n : Notification) (st : LoopState)
    (hfail : (∃ e, hexDecode n.deviceToken = .error e)
           ∨ (∃ e, env.marshal = .error e)
           ∨ (∃ pb, env.marshal = .ok pb ∧ maxPayloadBytes < pb.length)) :
    isSendError (send env n st).result = true
    ∧ (send env n st).state = st
    ∧ (send env n st).writes = []
    ∧ (send env n st).frameIds = [] := by
  rcases hfail with ⟨e, he⟩ | ⟨e, he⟩ | ⟨pb, hpb, hbig⟩
  · rw [send_hex_err he]; exact ⟨rfl, rfl, rfl, rfl⟩
  · cases htok : hexDecode n.deviceToken with
    | error e' => rw [send_hex_err htok]; exact ⟨rfl, rfl, rfl, rfl⟩
    | ok tok => rw [send_marshal_err htok he]; exact ⟨rfl, rfl, rfl, rfl⟩
  · cases htok : hexDecode n.deviceToken with
    | error e' => rw [send_hex_err htok]; exact ⟨rfl, rfl, rfl, rfl⟩
    | ok tok => rw [send_too_large htok hpb hbig]; exact ⟨rfl, rfl, rfl, rfl⟩

/-- Witness for C10 at a malformed (odd-length) device token. -/
theorem c10_early_failure_no_effect_witness :
    isSendError (send demoSendEnv ⟨"ab1", 3600⟩ initState).result = true
    ∧ (send demoSendEnv ⟨"ab1", 3600⟩ initState).state = initState
    ∧ (send demoSendEnv ⟨"ab1", 3600⟩ initState).writes = []
    ∧ (send demoSendEnv ⟨"ab1", 3600⟩ initState).frameIds = [] :=
  c10_early_failure_no_effect demoSendEnv ⟨"ab1", 3600⟩ initState
    (Or.inl ⟨"encoding hex odd length hex string", by decide⟩)

/-! ## C8: the error reader -/

/-- C8: over any sequence of read outcomes, `readError` publishes exactly one
event per read performed, in order, each carrying the bytes that were read
and the read error if any; when no read fails it keeps reading and never
signals quit; when some read fails it stops at the first failure, having
published its event, and signals the quit channel exactly once. -/
theorem c8_read_error_loop (reads : List ReadOutcome) :
    (readError reads).1 = (reads.take (readError reads).1.length).map mkEvent
    ∧ (readError reads).2 ≤ 1
    ∧ ((∀ r ∈ reads, r.readErr = none) →
         (readError reads).1 = reads.map mkEvent ∧ (readError reads).2 = 0)
    ∧ (∀ i r, reads[i]? = some r → r.readErr.isSome = true →
         (∀ j r', j < i → reads[j]? = some r' → r'.readErr = none) →
         (readError reads).1.length = i + 1 ∧ (readError reads).2 = 1)
    ∧ ((∀ r ∈ reads, r.bytes.length ≤ 6) →
         ∀ ev ∈ (readError reads).1, ev.raw.length ≤ 6) := by
  induction reads with
  | nil =>
    refine ⟨rfl, by simp [readError], fun _ => ⟨rfl, rfl⟩, ?_, by simp [readError]⟩
    intro i r hir
    simp at hir
  | cons x rest ih =>
    cases hx : x.readErr with
    | some e =>
      have hre : readError (x :: rest) = ([mkEvent x], 1) := by
        simp [readError, hx]
      refine ⟨?_, ?_, ?_, ?_, ?_⟩
      · rw [hre]; rfl
      · rw [hre]
      · intro hall
        have := hall x (by simp)
        rw [hx] at this
        cases this
      · intro i r hir hsome hprev
        cases i with
        | zero => rw [hre]; exact ⟨rfl, rfl⟩
        | succ i' =>
          have h0 := hprev 0 x (Nat.succ_pos i') (by simp)
          rw [hx] at h0
          cases h0
      · intro hall ev hev
        rw [hre] at hev
        simp only [List.mem_singleton] at hev
        subst hev
        exact hall x (by simp)
    | none =>
      have hre : readError (x :: rest)
          = (mkEvent x :: (readError rest).1, (readError rest).2) := by
        simp [readError, hx]
      obtain ⟨ih1, ih2, ih3, ih4, ih5⟩ := ih
      refine ⟨?_, ?_, ?_, ?_, ?_⟩
      · rw [hre]
        simp only [List.length_cons, List.take_succ_cons, List.map_cons]
        rw [← ih1]
      · rw [hre]; exact ih2
      · intro hall
        rw [hre]
        have hrest := ih3 (fun r hr => hall r (List.mem_cons_of_mem _ hr))
        simp [hrest.1, hrest.2]
      · intro i r hir hsome hprev
        cases i with
        | zero =>
          simp only [List.getElem?_cons_zero, Option.some_inj] at hir
          subst hir
          rw [hx] at hsome
          cases hsome
        | succ i' =>
          simp only [List.getElem?_cons_succ] at hir
          have hprev' : ∀ j r', j < i' → rest[j]? = some r' → r'.readErr = none := by
            intro j r' hj hjr
            exact hprev (j + 1) r' (Nat.succ_lt_succ hj) (by simpa using hjr)
          have := ih4 i' r hir hsome hprev'
          rw [hre]
          simp only [List.length_cons]
          exact ⟨by rw [this.1], this.2⟩
      · intro hall ev hev
        rw [hre] at hev
        simp only [List.mem_cons] at hev
        rcases hev with hev | hev
        · subst hev
          exact hall x (by simp)
        · exact ih5 (fun r hr => hall r (List.mem_cons_of_mem _ hr)) ev hev

/-- Witness for C8: two successful reads followed by an EOF produce three
events in order and exactly one quit signal. -/
theorem c8_read_error_loop_witness :
    (readError [⟨[8, 0, 0, 0, 0, 5], none⟩, ⟨[8, 2, 0, 0, 0, 9], none⟩, ⟨[], some "EOF"⟩]).1.length = 2 + 1
    ∧ (readError [⟨[8, 0, 0, 0, 0, 5], none⟩, ⟨[8, 2, 0, 0, 0, 9], none⟩, ⟨[], some "EOF"⟩]).2 = 1 :=
  (c8_read_error_loop [⟨[8, 0, 0, 0, 0, 5], none⟩, ⟨[8, 2, 0, 0, 0, 9], none⟩, ⟨[], some "EOF"⟩]).2.2.2.1
    2 ⟨[], some "EOF"⟩ (by decide) (by decide)
    (by intro j r' hj hjr; interval_cases j <;> simp_all <;> rw [← hjr])

/-! ## Basic lemmas about the step machine -/

@[simp]
theorem StepOut.append_results (a b : StepOut) : (a.append b).results = a.results ++ b.results :=
  rfl

@[simp]
theorem StepOut.append_writes (a b : StepOut) : (a.append b).writes = a.writes ++ b.writes :=
  rfl

@[simp]
theorem StepOut.append_frameIds (a b : StepOut) :
    (a.append b).frameIds = a.frameIds ++ b.frameIds :=
  rfl

@[simp]
theorem StepOut.append_dials (a b : StepOut) : (a.append b).dials = a.dials + b.dials :=
  rfl

@[simp]
theorem StepOut.append_events (a b : StepOut) : (a.append b).events = a.events ++ b.events :=
  rfl

theorem runLoop_nil (st : LoopState) : runLoop st [] = (st, StepOut.empty) :=
  rfl

theorem runLoop_cons (st : LoopState) (s : Step) (rest : List Step) :
    runLoop st (s :: rest)
      = ((runLoop (stepLoop st s).1 rest).1,
         (stepLoop st s).2.append (runLoop (stepLoop st s).1 rest).2) :=
  rfl

/-- `send` either leaves the state alone (an early failure) or bumps only the
identifier. -/
theorem send_state_eq (env : SendEnv) (n : Notification) (st : LoopState) :
    (send env n st).state = st
    ∨ (send env n st).state = { st with identifier := (st.identifier + 1) % 2 ^ 32 } := by
  cases htok : hexDecode n.deviceToken with
  | error e => left; rw [send_hex_err htok]
  | ok tok =>
    cases hpb : env.marshal with
    | error e => left; rw [send_marshal_err htok hpb]
    | ok pb =>
      by_cases hbig : maxPayloadBytes < pb.length
      · left; rw [send_too_large htok hpb hbig]
      · right; exact (send_reaches_write htok hpb (Nat.not_lt.mp hbig)).1

/-- `send` never touches the connection, the open-socket ledger or the loop
phase. -/
theorem send_preserves (env : SendEnv) (n : Notification) (st : LoopState) :
    (send env n st).state.conn = st.conn
    ∧ (send env n st).state.openSocks = st.openSocks
    ∧ (send env n st).state.phase = st.phase := by
  rcases send_state_eq env n st with h | h <;> rw [h] <;> exact ⟨rfl, rfl, rfl⟩

/-- Leaving the active phase always ends with no referenced connection and
the loop back at idle. -/
theorem leaveActive_state (ce : Option String) (st : LoopState) :
    (leaveActive ce st).1.conn = none ∧ (leaveActive ce st).1.phase = .idle
    ∧ (leaveActive ce st).1.identifier = st.identifier := by
  cases hc : st.conn with
  | none => simp [leaveActive, closeApn, hc]
  | some c => cases ce <;> simp [leaveActive, closeApn, hc]

/-! ## C6: one result per submitted request, in order -/

/-- The request id a step carries when it is a submission. -/
def submitId : Step → Option Nat
  | .submit r _ _ _ => some r
  | _ => none

/-- Each serviced step answers exactly the request it carries: a submission
gets exactly one result tagged with its id, every other event none. -/
theorem stepLoop_results (st : LoopState) (s : Step) :
    ((stepLoop st s).2.results).map Prod.fst = (submitId s).toList := by
  cases s with
  | submit r cenv senv n =>
    cases hph : st.phase with
    | idle =>
      rcases hc : connect cenv st with ⟨res, st1, d⟩
      cases res with
      | error e => simp [stepLoop, hph, hc, submitId]
      | ok u => simp [stepLoop, hph, hc, submitId]
    | active => simp [stepLoop, hph, submitId]
  | quitSignal ce =>
    cases hph : st.phase with
    | idle => simp [stepLoop, hph, submitId, StepOut.empty]
    | active =>
      rcases hca : closeApn ce st with ⟨cerr, st1⟩
      cases cerr <;> simp [stepLoop, hph, leaveActive, hca, submitId, StepOut.empty]
  | idleTimeout ce =>
    cases hph : st.phase with
    | idle => simp [stepLoop, hph, submitId, StepOut.empty]
    | active =>
      rcases hca : closeApn ce st with ⟨cerr, st1⟩
      cases cerr <;> simp [stepLoop, hph, leaveActive, hca, submitId, StepOut.empty]
  | closeCall => simp [stepLoop, submitId, StepOut.empty]

theorem runLoop_results (steps : List Step) :
    ∀ st : LoopState, ((runLoop st steps).2.results).map Prod.fst = steps.filterMap submitId := by
  induction steps with
  | nil => intro st; rfl
  | cons s rest ih =>
    intro st
    rw [runLoop_cons]
    simp only [StepOut.append_results, List.map_append, stepLoop_results, ih]
    cases hs : submitId s <;> simp [List.filterMap_cons, hs]

/-- C6: over any trace of serviced events, every submitted request receives
exactly one result, results are delivered in submission order, and no other
event produces a result. -/
theorem c6_one_result_per_submit (steps : List Step) :
    ((runLoop initState steps).2.results).map Prod.fst = steps.filterMap submitId :=
  runLoop_results steps initState

/-! ## C1: at most one live connection -/

/-- The send-loop connection invariant: while idle no connection is
referenced, and a referenced connection is genuinely open (in the ledger). -/
def ConnInv (st : LoopState) : Prop :=
  (st.phase = .idle → st.conn = none) ∧ ∀ c, st.conn = some c → c ∈ st.openSocks

theorem connInv_init : ConnInv initState :=
  ⟨fun _ => rfl, fun c hc => by simp [initState] at hc⟩

theorem connInv_step (st : LoopState) (s : Step) (h : ConnInv st) :
    ConnInv (stepLoop st s).1 := by
  obtain ⟨hidle, hmem⟩ := h
  cases s with
  | submit r cenv senv n =>
    cases hph : st.phase with
    | idle =>
      have hcn : st.conn = none := hidle hph
      have hca : closeApn cenv.closeErr st = (none, st) := by simp [closeApn, hcn]
      cases hd : cenv.dialErr with
      | some e =>
        have hce : connect cenv st = (.error (.dialFailed e), st, 1) := by
          simp [connect, hca, hd]
        have h1 : (stepLoop st (.submit r cenv senv n)).1 = st := by
          simp [stepLoop, hph, hce]
        rw [h1]
        exact ⟨fun _ => hcn, hmem⟩
      | none =>
        cases hh : cenv.handshakeErr with
        | some e =>
          have hce : connect cenv st
              = (.error (.handshakeFailed e),
                 { st with nextSock := st.nextSock + 1,
                           openSocks := st.openSocks ++ [st.nextSock] }, 1) := by
            simp [connect, hca, hd, hh]
          have h1 : (stepLoop st (.submit r cenv senv n)).1
              = { st with nextSock := st.nextSock + 1,
                          openSocks := st.openSocks ++ [st.nextSock] } := by
            simp [stepLoop, hph, hce]
          rw [h1]
          refine ⟨fun _ => hcn, fun c hc => ?_⟩
          simp only at hc
          rw [hcn] at hc
          cases hc
        | none =>
          have hce : connect cenv st
              = (.ok (),
                 { st with nextSock := st.nextSock + 1,
                           openSocks := st.openSocks ++ [st.nextSock],
                           conn := some st.nextSock }, 1) := by
            simp [connect, hca, hd, hh]
          have h1 : (stepLoop st (.submit r cenv senv n)).1
              = { (send senv n { st with nextSock := st.nextSock + 1,
                                         openSocks := st.openSocks ++ [st.nextSock],
                                         conn := some st.nextSock }).state
                  with phase := .active } := by
            simp [stepLoop, hph, hce]
          rw [h1]
          have hsp := send_preserves senv n
            { st with nextSock := st.nextSock + 1,
                      openSocks := st.openSocks ++ [st.nextSock],
                      conn := some st.nextSock }
          refine ⟨fun hp => Phase.noConfusion hp, fun c hc => ?_⟩
          have hc2 : (send senv n { st with nextSock := st.nextSock + 1,
                                            openSocks := st.openSocks ++ [st.nextSock],
                                            conn := some st.nextSock }).state.conn = some c := hc
          rw [hsp.1] at hc2
          have hc3 : st.nextSock = c := by simpa using hc2
          show c ∈ (send senv n { st with nextSock := st.nextSock + 1,
                                          openSocks := st.openSocks ++ [st.nextSock],
                                          conn := some st.nextSock }).state.openSocks
          rw [hsp.2.1, ← hc3]
          simp
    | active =>
      have h1 : (stepLoop st (.submit r cenv senv n)).1 = (send senv n st).state := by
        simp [stepLoop, hph]
      rw [h1]
      have hsp := send_preserves senv n st
      refine ⟨fun hp => ?_, fun c hc => ?_⟩
      · rw [hsp.1]
        exact hidle (by rw [← hsp.2.2]; exact hp)
      · rw [hsp.2.1]
        exact hmem c (by rw [← hsp.1]; exact hc)
  | quitSignal ce =>
    cases hph : st.phase with
    | idle =>
      have h1 : (stepLoop st (.quitSignal ce)).1 = st := by simp [stepLoop, hph]
      rw [h1]; exact ⟨hidle, hmem⟩
    | active =>
      have h1 : (stepLoop st (.quitSignal ce)).1 = (leaveActive ce st).1 := by
        simp [stepLoop, hph]
      rw [h1]
      have hls := leaveActive_state ce st
      exact ⟨fun _ => hls.1, fun c hc => by rw [hls.1] at hc; cases hc⟩
  | idleTimeout ce =>
    cases hph : st.phase with
    | idle =>
      have h1 : (stepLoop st (.idleTimeout ce)).1 = st := by simp [stepLoop, hph]
      rw [h1]; exact ⟨hidle, hmem⟩
    | active =>
      have h1 : (stepLoop st (.idleTimeout ce)).1 = (leaveActive ce st).1 := by
        simp [stepLoop, hph]
      rw [h1]
      have hls := leaveActive_state ce st
      exact ⟨fun _ => hls.1, fun c hc => by rw [hls.1] at hc; cases hc⟩
  | closeCall =>
    cases hc : st.conn with
    | none =>
      have h1 : (stepLoop st .closeCall).1 = st := by simp [stepLoop, closeApn, hc]
      rw [h1]; exact ⟨hidle, hmem⟩
    | some c =>
      have h1 : (stepLoop st .closeCall).1
          = { st with conn := none, openSocks := st.openSocks.erase c } := by
        simp [stepLoop, closeApn, hc]
      rw [h1]
      exact ⟨fun _ => rfl, fun c' hc' => by cases hc'⟩

theorem connInv_run (steps : List Step) :
    ∀ st : LoopState, ConnInv st → ConnInv (runLoop st steps).1 := by
  induction steps with
  | nil => intro st h; exact h
  | cons s rest ih =>
    intro st h
    rw [runLoop_cons]
    exact ih _ (connInv_step st s h)

/-- C1: after any trace of serviced events from a fresh client, the client
holds at most one open connection; while the loop is idle it holds none; and
the connection it references, if any, is genuinely open. -/
theorem c1_at_most_one_connection (steps : List Step) :
    (heldOpen (runLoop initState steps).1).length ≤ 1
    ∧ ((runLoop initState steps).1.phase = .idle
        → heldOpen (runLoop initState steps).1 = [])
    ∧ ∀ c, (runLoop initState steps).1.conn = some c
        → c ∈ (runLoop initState steps).1.openSocks := by
  obtain ⟨hidle, hmem⟩ := connInv_run steps initState connInv_init
  refine ⟨?_, ?_, hmem⟩
  · cases h : (runLoop initState steps).1.conn with
    | none => simp [heldOpen, h]
    | some c =>
      by_cases hm : c ∈ (runLoop initState steps).1.openSocks <;> simp [heldOpen, h, hm]
  · intro hp
    simp [heldOpen, hidle hp]

/-- Witness for C1: after a successful send and a connection-loss signal the
client holds no open connection. -/
theorem c1_at_most_one_connection_witness :
    heldOpen (runLoop initState [demoSubmit, Step.quitSignal none]).1 = [] :=
  (c1_at_most_one_connection [demoSubmit, Step.quitSignal none]).2.1 (by decide)

/-! ## C4: a write error and the active phase -/

/-- The state after one successful submit from a fresh client: connected on
socket 0, next identifier 1, in the active phase. -/
def stActive : LoopState := ⟨some 0, 1, 1, [0], .active⟩

/-- A send oracle whose socket write fails. -/
def badWriteEnv : SendEnv := ⟨.ok [104, 105], 1000, some "broken pipe"⟩

/-- A request whose write will fail. -/
def badWriteSubmit : Step := .submit 1 demoConnectEnv badWriteEnv demoNotif

/-- Counterexample to C4: on a reachable active state, a submit whose socket
write fails does get the write error as its result, but the send loop does
not leave the active phase and does not close the connection — it keeps
serving further sends on the same connection. -/
theorem c4_counterexample :
    stActive = (runLoop initState [demoSubmit]).1
    ∧ (stepLoop stActive badWriteSubmit).2.results
        = [(1, .error (.socketWrite "broken pipe"))]
    ∧ ¬ (stepLoop stActive badWriteSubmit).1.phase = .idle
    ∧ ¬ (stepLoop stActive badWriteSubmit).1.conn = none
    ∧ heldOpen (stepLoop stActive badWriteSubmit).1 = [0] := by
  decide

/-- C4 as amended: when a send serviced in the active phase on a live
connection hits a write error, that request's result is the write error, but
the loop stays in the active phase on the same open connection; only the
quit signal or the idle timeout end the active phase. -/
theorem c4_write_error_surfaced (st : LoopState) (r : Nat) (cenv : ConnectEnv)
    (env : SendEnv) (n : Notification) (c : Nat) (e : String) (tok pb : List Nat)
    (hph : st.phase = .active) (hconn : st.conn = some c)
    (htok : hexDecode n.deviceToken = .ok tok) (hpb : env.marshal = .ok pb)
    (hlen : pb.length ≤ maxPayloadBytes) (hw : env.writeErr = some e) :
    (stepLoop st (.submit r cenv env n)).2.results = [(r, .error (.socketWrite e))]
    ∧ (stepLoop st (.submit r cenv env n)).1.phase = .active
    ∧ (stepLoop st (.submit r cenv env n)).1.conn = some c
    ∧ (stepLoop st (.submit r cenv env n)).1.openSocks = st.openSocks := by
  have hse := send_write_err hconn htok hpb hlen hw
  have h1 : stepLoop st (.submit r cenv env n)
      = ((send env n st).state,
         { StepOut.empty with
            results := [(r, (send env n st).result)],
            writes := (send env n st).writes, frameIds := (send env n st).frameIds }) := by
    simp [stepLoop, hph]
  rw [h1, hse]
  exact ⟨rfl, hph, hconn, rfl⟩

/-- Witness for C4's amended statement on the concrete reachable state. -/
theorem c4_write_error_surfaced_witness :
    (stepLoop stActive badWriteSubmit).2.results
        = [(1, .error (.socketWrite "broken pipe"))]
    ∧ (stepLoop stActive badWriteSubmit).1.phase = .active
    ∧ (stepLoop stActive badWriteSubmit).1.conn = some 0
    ∧ (stepLoop stActive badWriteSubmit).1.openSocks = stActive.openSocks :=
  c4_write_error_surfaced stActive 1 demoConnectEnv badWriteEnv demoNotif 0
    "broken pipe" [171, 18] [104, 105] rfl rfl (by decide) rfl (by decide) rfl

/-! ## C5: connect failure is the submit's result, one attempt, still usable -/

/-- From an idle state with no connection, servicing a submit always makes
exactly one dial attempt. -/
theorem stepLoop_submit_dials (st : LoopState) (r : Nat) (cenv : ConnectEnv)
    (senv : SendEnv) (n : Notification)
    (hph : st.phase = .idle) (hconn : st.conn = none) :
    (stepLoop st (.submit r cenv senv n)).2.dials = 1 := by
  have hca : closeApn cenv.closeErr st = (none, st) := by simp [closeApn, hconn]
  cases hd : cenv.dialErr with
  | some e => simp [stepLoop, hph, connect, hca, hd]
  | none =>
    cases hh : cenv.handshakeErr with
    | some e => simp [stepLoop, hph, connect, hca, hd, hh]
    | none => simp [stepLoop, hph, connect, hca, hd, hh]

/-- C5: a submit that triggers a connection attempt while no connection is
live gets the dial or handshake failure as its own result, exactly one dial
attempt is made, nothing is written, no identifier is consumed, the loop is
back at idle with no connection, and any subsequent submit makes a fresh
dial attempt of its own. -/
theorem c5_connect_failure (st : LoopState) (r : Nat) (cenv : ConnectEnv)
    (senv : SendEnv) (n : Notification) (e : String)
    (hph : st.phase = .idle) (hconn : st.conn = none)
    (hfail : cenv.dialErr = some e ∨ (cenv.dialErr = none ∧ cenv.handshakeErr = some e)) :
    ((stepLoop st (.submit r cenv senv n)).2.results = [(r, .error (.dialFailed e))]
       ∨ (stepLoop st (.submit r cenv senv n)).2.results = [(r, .error (.handshakeFailed e))])
    ∧ (stepLoop st (.submit r cenv senv n)).2.dials = 1
    ∧ (stepLoop st (.submit r cenv senv n)).2.writes = []
    ∧ (stepLoop st (.submit r cenv senv n)).2.frameIds = []
    ∧ (stepLoop st (.submit r cenv senv n)).1.phase = .idle
    ∧ (stepLoop st (.submit r cenv senv n)).1.conn = none
    ∧ (stepLoop st (.submit r cenv senv n)).1.identifier = st.identifier
    ∧ ∀ r2 cenv2 senv2 n2,
        (stepLoop (stepLoop st (.submit r cenv senv n)).1
            (.submit r2 cenv2 senv2 n2)).2.dials = 1 := by
  have hca : closeApn cenv.closeErr st = (none, st) := by simp [closeApn, hconn]
  rcases hfail with hd | ⟨hd, hh⟩
  · have hce : connect cenv st = (.error (.dialFailed e), st, 1) := by
      simp [connect, hca, hd]
    have h1 : stepLoop st (.submit r cenv senv n)
        = (st, { StepOut.empty with results := [(r, .error (.dialFailed e))], dials := 1 }) := by
      simp [stepLoop, hph, hce]
    rw [h1]
    exact ⟨Or.inl rfl, rfl, rfl, rfl, hph, hconn, rfl,
      fun r2 cenv2 senv2 n2 => stepLoop_submit_dials st r2 cenv2 senv2 n2 hph hconn⟩
  · have hce : connect cenv st
        = (.error (.handshakeFailed e),
           { st with nextSock := st.nextSock + 1,
                     openSocks := st.openSocks ++ [st.nextSock] }, 1) := by
      simp [connect, hca, hd, hh]
    have h1 : stepLoop st (.submit r cenv senv n)
        = ({ st with nextSock := st.nextSock + 1,
                     openSocks := st.openSocks ++ [st.nextSock] },
           { StepOut.empty with results := [(r, .error (.handshakeFailed e))], dials := 1 }) := by
      simp [stepLoop, hph, hce]
    rw [h1]
    exact ⟨Or.inr rfl, rfl, rfl, rfl, hph, hconn, rfl,
      fun r2 cenv2 senv2 n2 =>
        stepLoop_submit_dials _ r2 cenv2 senv2 n2 hph hconn⟩

/-- Witness for C5 at a failing handshake on a fresh client. -/
theorem c5_connect_failure_witness :
    ((stepLoop initState (.submit 0 ⟨none, none, some "bad cert"⟩ demoSendEnv demoNotif)).2.results
        = [(0, .error (.dialFailed "bad cert"))]
      ∨ (stepLoop initState (.submit 0 ⟨none, none, some "bad cert"⟩ demoSendEnv demoNotif)).2.results
        = [(0, .error (.handshakeFailed "bad cert"))])
    ∧ (stepLoop initState (.submit 0 ⟨none, none, some "bad cert"⟩ demoSendEnv demoNotif)).2.dials = 1
    ∧ (stepLoop initState (.submit 0 ⟨none, none, some "bad cert"⟩ demoSendEnv demoNotif)).2.writes = []
    ∧ (stepLoop initState (.submit 0 ⟨none, none, some "bad cert"⟩ demoSendEnv demoNotif)).2.frameIds = []
    ∧ (stepLoop initState (.submit 0 ⟨none, none, some "bad cert"⟩ demoSendEnv demoNotif)).1.phase = .idle
    ∧ (stepLoop initState (.submit 0 ⟨none, none, some "bad cert"⟩ demoSendEnv demoNotif)).1.conn = none
    ∧ (stepLoop initState (.submit 0 ⟨none, none, some "bad cert"⟩ demoSendEnv demoNotif)).1.identifier
        = initState.identifier
    ∧ ∀ r2 cenv2 senv2 n2,
        (stepLoop (stepLoop initState (.submit 0 ⟨none, none, some "bad cert"⟩ demoSendEnv demoNotif)).1
            (.submit r2 cenv2 senv2 n2)).2.dials = 1 :=
  c5_connect_failure initState 0 ⟨none, none, some "bad cert"⟩ demoSendEnv demoNotif
    "bad cert" rfl rfl (Or.inr ⟨rfl, rfl⟩)

/-! ## C3: the identifier sequence across sends and reconnects -/

theorem closeApn_identifier (ce : Option String) (st : LoopState) :
    (closeApn ce st).2.identifier = st.identifier := by
  cases h : st.conn <;> simp [closeApn, h]

theorem connect_identifier (cenv : ConnectEnv) (st : LoopState) :
    (connect cenv st).2.1.identifier = st.identifier := by
  rcases hca : closeApn cenv.closeErr st with ⟨cerr, st1⟩
  have hid : st1.identifier = st.identifier := by
    have h := closeApn_identifier cenv.closeErr st
    rw [hca] at h
    exact h
  cases cerr with
  | some e => simp [connect, hca, hid]
  | none =>
    cases hd : cenv.dialErr with
    | some e => simp [connect, hca, hd, hid]
    | none =>
      cases hh : cenv.handshakeErr with
      | some e => simp [connect, hca, hd, hh, hid]
      | none => simp [connect, hca, hd, hh, hid]

/-- One `send` call either builds no frame and keeps the counter, or builds
exactly one frame carrying the current counter and bumps it once. -/
theorem send_frameIds (env : SendEnv) (n : Notification) (st : LoopState) :
    ((send env n st).frameIds = [] ∧ (send env n st).state.identifier = st.identifier)
    ∨ ((send env n st).frameIds = [st.identifier]
        ∧ (send env n st).state.identifier = (st.identifier + 1) % 2 ^ 32) := by
  cases htok : hexDecode n.deviceToken with
  | error e => left; rw [send_hex_err htok]; exact ⟨rfl, rfl⟩
  | ok tok =>
    cases hpb : env.marshal with
    | error e => left; rw [send_marshal_err htok hpb]; exact ⟨rfl, rfl⟩
    | ok pb =>
      by_cases hbig : maxPayloadBytes < pb.length
      · left; rw [send_too_large htok hpb hbig]; exact ⟨rfl, rfl⟩
      · right
        have h := @send_reaches_write _ _ st _ _ htok hpb (Nat.not_lt.mp hbig)
        exact ⟨h.2, by rw [h.1]⟩

/-- One serviced step either assigns no frame identifier and keeps the
counter, or assigns exactly the current counter value and bumps it once
modulo `2 ^ 32`. -/
theorem stepLoop_frameIds (st : LoopState) (s : Step) :
    ((stepLoop st s).2.frameIds = [] ∧ (stepLoop st s).1.identifier = st.identifier)
    ∨ ((stepLoop st s).2.frameIds = [st.identifier]
        ∧ (stepLoop st s).1.identifier = (st.identifier + 1) % 2 ^ 32) := by
  cases s with
  | submit r cenv senv n =>
    cases hph : st.phase with
    | idle =>
      rcases hce : connect cenv st with ⟨res, st1, d⟩
      have hid1 : st1.identifier = st.identifier := by
        have h := connect_identifier cenv st
        rw [hce] at h
        exact h
      cases res with
      | error e =>
        left
        have h1 : stepLoop st (.submit r cenv senv n)
            = (st1, { StepOut.empty with results := [(r, .error e)], dials := d }) := by
          simp [stepLoop, hph, hce]
        rw [h1]
        exact ⟨rfl, hid1⟩
      | ok u =>
        have h1 : stepLoop st (.submit r cenv senv n)
            = ({ (send senv n st1).state with phase := .active },
               ⟨[(r, (send senv n st1).result)], (send senv n st1).writes,
                (send senv n st1).frameIds, d, []⟩) := by
          simp [stepLoop, hph, hce]
        rw [h1]
        rcases send_frameIds senv n st1 with ⟨hf, hid⟩ | ⟨hf, hid⟩
        · left
          refine ⟨hf, ?_⟩
          show (send senv n st1).state.identifier = st.identifier
          rw [hid, hid1]
        · right
          rw [hid1] at hf hid
          refine ⟨hf, ?_⟩
          show (send senv n st1).state.identifier = (st.identifier + 1) % 2 ^ 32
          rw [hid]
    | active =>
      have h1 : stepLoop st (.submit r cenv senv n)
          = ((send senv n st).state,
             { StepOut.empty with
                results := [(r, (send senv n st).result)],
                writes := (send senv n st).writes,
                frameIds := (send senv n st).frameIds }) := by
        simp [stepLoop, hph]
      rw [h1]
      exact send_frameIds senv n st
  | quitSignal ce =>
    left
    cases hph : st.phase with
    | idle => have h1 : stepLoop st (.quitSignal ce) = (st, StepOut.empty) := by
                simp [stepLoop, hph]
              rw [h1]; exact ⟨rfl, rfl⟩
    | active =>
      have h1 : (stepLoop st (.quitSignal ce)) = leaveActive ce st := by
        simp [stepLoop, hph]
      rw [h1]
      refine ⟨?_, (leaveActive_state ce st).2.2⟩
      cases hc : st.conn with
      | none => simp [leaveActive, closeApn, hc, StepOut.empty]
      | some c => cases ce <;> simp [leaveActive, closeApn, hc, StepOut.empty]
  | idleTimeout ce =>
    left
    cases hph : st.phase with
    | idle => have h1 : stepLoop st (.idleTimeout ce) = (st, StepOut.empty) := by
                simp [stepLoop, hph]
              rw [h1]; exact ⟨rfl, rfl⟩
    | active =>
      have h1 : (stepLoop st (.idleTimeout ce)) = leaveActive ce st := by
        simp [stepLoop, hph]
      rw [h1]
      refine ⟨?_, (leaveActive_state ce st).2.2⟩
      cases hc : st.conn with
      | none => simp [leaveActive, closeApn, hc, StepOut.empty]
      | some c => cases ce <;> simp [leaveActive, closeApn, hc, StepOut.empty]
  | closeCall =>
    left
    have h1 : (stepLoop st .closeCall) = ((closeApn none st).2, StepOut.empty) := by
      simp [stepLoop]
    rw [h1]
    exact ⟨rfl, closeApn_identifier none st⟩

/-- Over any trace, the frame identifiers are the consecutive counter values
from the starting counter, reduced mod `2 ^ 32`, and the final counter has
advanced by exactly the number of frames. -/
theorem runLoop_frameIds (steps : List Step) :
    ∀ st : LoopState, st.identifier < 2 ^ 32 →
      (runLoop st steps).2.frameIds
        = List.map (fun i => (st.identifier + i) % 2 ^ 32)
            (List.range (runLoop st steps).2.frameIds.length)
      ∧ (runLoop st steps).1.identifier
        = (st.identifier + (runLoop st steps).2.frameIds.length) % 2 ^ 32 := by
  induction steps with
  | nil =>
    intro st hlt
    refine ⟨rfl, ?_⟩
    rw [runLoop_nil]
    show st.identifier = (st.identifier + ([] : List Nat).length) % 2 ^ 32
    rw [List.length_nil, Nat.add_zero, Nat.mod_eq_of_lt hlt]
  | cons s rest ih =>
    intro st hlt
    rw [runLoop_cons]
    rcases stepLoop_frameIds st s with ⟨hf, hid⟩ | ⟨hf, hid⟩
    · have hlt1 : (stepLoop st s).1.identifier < 2 ^ 32 := by rw [hid]; exact hlt
      obtain ⟨ih1, ih2⟩ := ih (stepLoop st s).1 hlt1
      rw [hid] at ih1 ih2
      constructor
      · simp only [StepOut.append_frameIds, hf, List.nil_append]
        exact ih1
      · simp only [StepOut.append_frameIds, hf, List.nil_append]
        exact ih2
    · have hlt1 : (stepLoop st s).1.identifier < 2 ^ 32 := by
        rw [hid]; exact Nat.mod_lt _ (by norm_num)
      obtain ⟨ih1, ih2⟩ := ih (stepLoop st s).1 hlt1
      rw [hid] at ih1 ih2
      have hfun : (fun i => ((st.identifier + 1) % 2 ^ 32 + i) % 2 ^ 32)
          = (fun i => (st.identifier + i) % 2 ^ 32) ∘ Nat.succ := by
        funext i
        simp only [Function.comp, Nat.succ_eq_add_one]
        rw [Nat.mod_add_mod]
        congr 1
        omega
      constructor
      · simp only [StepOut.append_frameIds, hf, List.singleton_append]
        rw [ih1]
        simp only [List.length_cons, List.length_map, List.length_range]
        rw [List.range_succ_eq_map, List.map_cons, List.map_map]
        congr 1
        · rw [Nat.add_zero, Nat.mod_eq_of_lt hlt]
        · rw [hfun]
      · simp only [StepOut.append_frameIds, hf, List.singleton_append, List.length_cons]
        rw [ih2, Nat.mod_add_mod]
        congr 1
        omega

/-- A trace of `2 ^ 32 + 1` well-formed submissions: enough sends to wrap
the `uint32` identifier counter. -/
def c3Trace : List Step := List.replicate (2 ^ 32 + 1) demoSubmit

/-- Servicing `demoSubmit` in the active phase on a live connection sends one
frame and bumps the counter. -/
theorem stepLoop_demo_active (st : LoopState) (c : Nat)
    (hph : st.phase = .active) (hconn : st.conn = some c) :
    stepLoop st demoSubmit
      = ({ st with identifier := (st.identifier + 1) % 2 ^ 32 },
         { StepOut.empty with
            results := [(0, .ok ())],
            writes := [encodePushFrame st.identifier 4600 [171, 18] [104, 105]],
            frameIds := [st.identifier] }) := by
  have htok : hexDecode demoNotif.deviceToken = .ok [171, 18] := by decide
  have hexp : uint32Of (demoSendEnv.nowUnix + demoNotif.expireAfterSeconds) = 4600 := by decide
  have hse := @send_write_ok demoSendEnv demoNotif st c _ _ hconn htok rfl (by decide) rfl
  rw [hexp] at hse
  have h1 : stepLoop st demoSubmit
      = ((send demoSendEnv demoNotif st).state,
         { StepOut.empty with
            results := [(0, (send demoSendEnv demoNotif st).result)],
            writes := (send demoSendEnv demoNotif st).writes,
            frameIds := (send demoSendEnv demoNotif st).frameIds }) := by
    simp [demoSubmit, stepLoop, hph]
  rw [h1, hse]

/-- Running `k` good submissions from an active state sends `k` frames and
advances the counter by `k` mod `2 ^ 32`. -/
theorem runLoop_demo_replicate (k : Nat) :
    ∀ (st : LoopState) (c : Nat), st.phase = .active → st.conn = some c →
      st.identifier < 2 ^ 32 →
      (runLoop st (List.replicate k demoSubmit)).2.frameIds.length = k
      ∧ (runLoop st (List.replicate k demoSubmit)).1
          = { st with identifier := (st.identifier + k) % 2 ^ 32 } := by
  induction k with
  | zero =>
    intro st c h1 h2 h3
    refine ⟨rfl, ?_⟩
    rw [List.replicate_zero, runLoop_nil]
    show st = { st with identifier := (st.identifier + 0) % 2 ^ 32 }
    rw [Nat.add_zero, Nat.mod_eq_of_lt h3]
  | succ k ih =>
    intro st c h1 h2 h3
    rw [List.replicate_succ, runLoop_cons, stepLoop_demo_active st c h1 h2]
    have h3' : ({ st with identifier := (st.identifier + 1) % 2 ^ 32 } : LoopState).identifier
        < 2 ^ 32 := Nat.mod_lt _ (by norm_num)
    obtain ⟨ihl, ihs⟩ := ih { st with identifier := (st.identifier + 1) % 2 ^ 32 } c h1 h2 h3'
    constructor
    · simp only [StepOut.append_frameIds, List.length_append]
      rw [ihl, List.length_singleton]
      omega
    · rw [ihs]
      have : ((st.identifier + 1) % 2 ^ 32 + k) % 2 ^ 32
          = (st.identifier + (k + 1)) % 2 ^ 32 := by
        rw [Nat.mod_add_mod]
        congr 1
        omega
      rw [this]

/-- Counterexample to C3: after `2 ^ 32 + 1` sends over the lifetime of one
client, the identifier counter has wrapped (Go `uint32` overflow) and the
sequence of assigned frame identifiers is not strictly increasing. -/
theorem c3_counterexample :
    ¬ List.Pairwise (· < ·) ((runLoop initState c3Trace).2.frameIds) := by
  intro hpw
  have hstep1 : stepLoop initState demoSubmit
      = (stActive,
         ⟨[(0, .ok ())], [encodePushFrame 0 4600 [171, 18] [104, 105]], [0], 1, []⟩) := by
    decide
  have hrw : c3Trace = demoSubmit :: List.replicate (2 ^ 32) demoSubmit :=
    List.replicate_succ demoSubmit (2 ^ 32)
  obtain ⟨hlen, _⟩ := runLoop_demo_replicate (2 ^ 32) stActive 0 rfl rfl (by decide)
  obtain ⟨hmap, _⟩ := runLoop_frameIds (List.replicate (2 ^ 32) demoSubmit) stActive
    (by decide)
  rw [hlen] at hmap
  have hs1 : (stepLoop initState demoSubmit).1 = stActive := by rw [hstep1]
  have hs2 : (stepLoop initState demoSubmit).2.frameIds = [0] := by rw [hstep1]
  have hful : (runLoop initState c3Trace).2.frameIds
      = 0 :: (runLoop stActive (List.replicate (2 ^ 32) demoSubmit)).2.frameIds := by
    rw [hrw, runLoop_cons]
    simp only [StepOut.append_frameIds, hs2, hs1, List.singleton_append]
  rw [hful, hmap] at hpw
  have hpw' := (List.pairwise_cons.mp hpw).2
  rw [List.pairwise_iff_getElem] at hpw'
  have hlen2 : (List.map (fun i => (stActive.identifier + i) % 2 ^ 32)
      (List.range (2 ^ 32))).length = 2 ^ 32 := by
    rw [List.length_map, List.length_range]
  have h2 := hpw' (2 ^ 32 - 2) (2 ^ 32 - 1) (by rw [hlen2]; norm_num)
    (by rw [hlen2]; norm_num) (by norm_num)
  simp only [List.getElem_map, List.getElem_range] at h2
  rw [show stActive.identifier = 1 from rfl] at h2
  norm_num at h2

/-- C3 as amended: over any trace from a fresh client, the n-th frame ever
sent carries identifier `n mod 2 ^ 32` — the counter is never reinitialized
on reconnect, so the sequence is strictly increasing as long as the total
number of send attempts does not exceed `2 ^ 32`, and wraps only at the
`uint32` boundary. -/
theorem c3_identifier_sequence (steps : List Step) :
    (runLoop initState steps).2.frameIds
      = List.map (fun i => i % 2 ^ 32)
          (List.range (runLoop initState steps).2.frameIds.length)
    ∧ ((runLoop initState steps).2.frameIds.length ≤ 2 ^ 32 →
        List.Pairwise (· < ·) (runLoop initState steps).2.frameIds) := by
  obtain ⟨h1, _⟩ := runLoop_frameIds steps initState (by decide)
  have hz : (fun i => (initState.identifier + i) % 2 ^ 32) = fun i => i % 2 ^ 32 := by
    funext i
    rw [show initState.identifier = 0 from rfl, Nat.zero_add]
  rw [hz] at h1
  refine ⟨h1, fun hle => ?_⟩
  rw [h1]
  have hid : ∀ x ∈ List.range (runLoop initState steps).2.frameIds.length,
      x % 2 ^ 32 = id x := fun x hx =>
    Nat.mod_eq_of_lt (lt_of_lt_of_le (List.mem_range.mp hx) hle)
  rw [List.map_congr_left hid, List.map_id]
  exact List.pairwise_lt_range _

/-- Witness for C3's amended statement at a short trace with a reconnect in
the middle: identifiers 0, 1, 2 in strictly increasing order. -/
theorem c3_identifier_sequence_witness :
    List.Pairwise (· < ·)
      ((runLoop initState [demoSubmit, demoSubmit, .idleTimeout none, demoSubmit]).2.frameIds) :=
  (c3_identifier_sequence [demoSubmit, demoSubmit, .idleTimeout none, demoSubmit]).2
    (by decide)

end Apns
